import Mathlib

/-!
Verification of the Idempotent Entitlement Grant & Refund/Clawback Ledger
subsystem of the commerce service (`apps/commerce-service/src/index.ts`).

The embedding models the database tables touched by the commerce handlers
(`skus`, `orders`, `entitlements`, `ledger_entries`, `order_items`, audit log)
as lists in creation (`createdAt`) order, the Redis idempotency cache as an
association list, and each route handler as a pure function on this state.
Prisma's `$transaction` is modelled by a write-budget parameter: the
transaction body either completes (returning the new database) or aborts
(`none`), in which case the caller keeps the original state — the all-or-
nothing contract of the ACID store the service runs against.  Generated row
ids are drawn from a `nextId` counter.
-/

namespace Commerce

structure SKU where
  id : String
  type : String
  isActive : Bool
  deriving DecidableEq

structure Order where
  id : Nat
  userId : String
  provider : String
  providerOrderId : String
  status : String
  idempotencyKey : Option String
  deriving DecidableEq

structure Entitlement where
  id : Nat
  userId : String
  skuId : String
  orderId : Option Nat
  status : String
  revocationReason : Option String
  deriving DecidableEq

structure LedgerEntry where
  entitlementId : Nat
  userId : String
  skuId : String
  changeType : String
  quantity : Int
  balanceAfter : Int
  deriving DecidableEq

structure OrderItem where
  orderId : Nat
  skuId : String
  quantity : Int
  deriving DecidableEq

structure DB where
  skus : List SKU
  orders : List Order
  entitlements : List Entitlement
  ledger : List LedgerEntry
  orderItems : List OrderItem
  auditCount : Nat
  nextId : Nat
  deriving DecidableEq

/-- Service state: database plus the Redis idempotency cache
(`idempotency:{key}` → serialized entitlement). -/
structure St where
  db : DB
  cache : List (String × Entitlement)
  deriving DecidableEq

def cacheGet (cache : List (String × Entitlement)) (k : String) : Option Entitlement :=
  (cache.find? (fun p => p.1 == k)).map (fun p => p.2)

def cacheSet (cache : List (String × Entitlement)) (k : String) (v : Entitlement) :
    List (String × Entitlement) :=
  (k, v) :: cache.filter (fun p => p.1 != k)

/-- `prisma.entitlement.findFirst({where: {skuId, userId, status: 'active'}})`. -/
def DB.findActiveEnt (db : DB) (userId skuId : String) : Option Entitlement :=
  db.entitlements.find? (fun e => e.skuId == skuId && e.userId == userId && e.status == "active")

/-- `tx.sKU.findById(skuId)` — lookup of the SKU row by primary key. -/
def DB.findSku (db : DB) (skuId : String) : Option SKU :=
  db.skus.find? (fun s => s.id == skuId)

/-- `prisma.order.findFirst({where: {providerOrderId, provider}})`. -/
def DB.findOrderByProvider (db : DB) (provider providerOrderId : String) : Option Order :=
  db.orders.find? (fun o => o.providerOrderId == providerOrderId && o.provider == provider)

/-- `prisma.order.findUnique({where: {id}})`. -/
def DB.findOrderById (db : DB) (oid : Nat) : Option Order :=
  db.orders.find? (fun o => o.id == oid)

/-- `tx.ledgerEntry.aggregate({where: {entitlementId, changeType}, _sum: {quantity}})`,
with the handler's `|| 0` applied (an empty aggregate sums to 0). -/
def sumQty (l : List LedgerEntry) (eid : Nat) (ct : String) : Int :=
  ((l.filter (fun e => e.entitlementId == eid && e.changeType == ct)).map
    (fun e => e.quantity)).sum

/-- `tx.order.update({where: {id}, data: {status: 'refunded', refundedAt: now}})`. -/
def DB.updateOrderStatusRefunded (db : DB) (oid : Nat) : DB :=
  { db with orders := db.orders.map (fun o => if o.id == oid then { o with status := "refunded" } else o) }

/-- `tx.entitlement.update({where: {id}, data: {status: 'revoked', revokedAt: now,
revocationReason: 'refund'}})`. -/
def DB.revokeEnt (db : DB) (eid : Nat) : DB :=
  { db with entitlements := db.entitlements.map fun e =>
      if e.id == eid then { e with status := "revoked", revocationReason := some "refund" } else e }

/-- `tx.ledgerEntry.create` — ledger rows are append-only, in `createdAt` order. -/
def DB.appendLedger (db : DB) (entry : LedgerEntry) : DB :=
  { db with ledger := db.ledger ++ [entry] }

/-- `tx.auditLog.create`. -/
def DB.appendAudit (db : DB) : DB :=
  { db with auditCount := db.auditCount + 1 }

structure GrantBody where
  userId : String
  skuId : String
  orderId : Option String
  idempotencyKey : String
  deriving DecidableEq

inductive GrantOutcome
  | cachedHit (e : Entitlement)
  | alreadyOwned (e : Entitlement)
  | created (e : Entitlement)
  deriving DecidableEq

/-- The `prisma.$transaction` body of `POST /api/v1/entitlements/grant`:
optionally create a verified Order (when `orderId` was supplied), create the
active Entitlement, append the grant LedgerEntry{quantity: 1, balanceAfter: 1}. -/
def grantTx (b : GrantBody) (db : DB) : Entitlement × DB :=
  let (orderIdValue, db1) : Option Nat × DB :=
    match b.orderId with
    | some po =>
        (some db.nextId,
         { db with
             orders := db.orders ++ [{ id := db.nextId, userId := b.userId, provider := "STEAM",
                                       providerOrderId := po, status := "verified",
                                       idempotencyKey := some b.idempotencyKey }],
             nextId := db.nextId + 1 })
    | none => (none, db)
  let ent : Entitlement :=
    { id := db1.nextId, userId := b.userId, skuId := b.skuId, orderId := orderIdValue,
      status := "active", revocationReason := none }
  let db2 := { db1 with entitlements := db1.entitlements ++ [ent], nextId := db1.nextId + 1 }
  let db3 := db2.appendLedger
    { entitlementId := ent.id, userId := b.userId, skuId := b.skuId,
      changeType := "grant", quantity := 1, balanceAfter := 1 }
  (ent, db3)

/-- `POST /api/v1/entitlements/grant`: idempotency-cache check, already-owned
short-circuit, then the grant transaction followed by the cache write. -/
def grant (b : GrantBody) (st : St) : GrantOutcome × St :=
  match cacheGet st.cache b.idempotencyKey with
  | some e => (.cachedHit e, st)
  | none =>
    match st.db.findActiveEnt b.userId b.skuId with
    | some e => (.alreadyOwned e, { st with cache := cacheSet st.cache b.idempotencyKey e })
    | none =>
      let (ent, db1) := grantTx b st.db
      (.created ent, { db := db1, cache := cacheSet st.cache b.idempotencyKey ent })

structure RefundItem where
  skuId : String
  quantity : Int
  deriving DecidableEq

/-- `tx.entitlement.findMany({where: {orderId, skuId, status: 'active'}})`. -/
def DB.activeEntsFor (db : DB) (oid : Nat) (skuId : String) : List Entitlement :=
  db.entitlements.filter (fun e => e.orderId == some oid && e.skuId == skuId && e.status == "active")

/-- Consume one unit of the transaction's write budget; `none` models the
write failing, which aborts the surrounding transaction. -/
def spendWrite : Nat → Option Nat
  | 0 => none
  | n + 1 => some n

/-- `remaining = (granted._sum.quantity || 0) - (spent._sum.quantity || 0)`
for one entitlement. -/
def remainingFor (db : DB) (eid : Nat) : Int :=
  sumQty db.ledger eid "grant" - sumQty db.ledger eid "spend"

/-- The clawback LedgerEntry `handleRefund` creates for an over-spent
consumable entitlement. -/
def clawbackEntry (uid : String) (item : RefundItem) (ent : Entitlement)
    (db : DB) : LedgerEntry :=
  { entitlementId := ent.id, userId := uid, skuId := item.skuId,
    changeType := "clawback", quantity := -item.quantity,
    balanceAfter := remainingFor db ent.id - item.quantity }

/-- The per-entitlement body of `handleRefund`: durable SKUs are revoked;
consumable SKUs compute `remaining = sum(grant entries) - sum(spend entries)`
and append a clawback entry before revoking when `remaining <= 0`; SKUs of any
other kind (and missing SKUs) are left untouched. -/
def processEnt (uid : String) (item : RefundItem) (ent : Entitlement) (db : DB)
    (budget : Nat) : Option (DB × Nat) :=
  match db.findSku item.skuId with
  | none => some (db, budget)
  | some sku =>
    if sku.type = "durable" then
      match spendWrite budget with
      | none => none
      | some b => some (db.revokeEnt ent.id, b)
    else if sku.type = "consumable" then
      if remainingFor db ent.id ≤ 0 then
        match spendWrite budget with
        | none => none
        | some b1 =>
          match spendWrite b1 with
          | none => none
          | some b2 => some (((db.appendLedger (clawbackEntry uid item ent db)).revokeEnt ent.id), b2)
      else
        match spendWrite budget with
        | none => none
        | some b => some (db.revokeEnt ent.id, b)
    else some (db, budget)

/-- `for (const entitlement of entitlements) ...` — the entitlement list was
fetched once, before the inner loop. -/
def processEnts (uid : String) (item : RefundItem) :
    List Entitlement → DB → Nat → Option (DB × Nat)
  | [], db, budget => some (db, budget)
  | ent :: rest, db, budget =>
    match processEnt uid item ent db budget with
    | none => none
    | some (db1, b1) => processEnts uid item rest db1 b1

/-- `for (const item of items) ...` — active entitlements are re-queried per
line item against the in-transaction state. -/
def processItems (uid : String) (oid : Nat) :
    List RefundItem → DB → Nat → Option (DB × Nat)
  | [], db, budget => some (db, budget)
  | item :: rest, db, budget =>
    match processEnts uid item (db.activeEntsFor oid item.skuId) db budget with
    | none => none
    | some (db1, b1) => processItems uid oid rest db1 b1

/-- The `prisma.$transaction` body of `handleRefund`: mark the order refunded,
process every line item, append the audit record.  Returns `none` when any
write fails, aborting the whole transaction. -/
def handleRefundBody (order : Order) (items : List RefundItem) (db : DB)
    (budget : Nat) : Option DB :=
  match spendWrite budget with
  | none => none
  | some b0 =>
    match processItems order.userId order.id items (db.updateOrderStatusRefunded order.id) b0 with
    | none => none
    | some (db1, b1) =>
      match spendWrite b1 with
      | none => none
      | some _ => some db1.appendAudit

/-- `handleRefund`: commit the transaction's result, or keep the original
state when it aborted. -/
def handleRefund (order : Order) (items : List RefundItem) (st : St)
    (budget : Nat) : St :=
  match handleRefundBody order items st.db budget with
  | none => st
  | some db1 => { st with db := db1 }

structure RefundPayload where
  orderId : String
  userId : String
  items : List RefundItem
  deriving DecidableEq

inductive ErrKind
  | notFound
  | validation
  | conflict
  | internal
  deriving DecidableEq

inductive RouteResult
  | ok (message : String)
  | err (e : ErrKind)
  deriving DecidableEq

/-- `POST /api/v1/refunds/webhook/steam`. -/
def steamWebhook (p : RefundPayload) (budget : Nat) (st : St) : RouteResult × St :=
  if p.orderId = "" ∨ p.userId = "" then (.err .validation, st)
  else
    match st.db.findOrderByProvider "STEAM" p.orderId with
    | none => (.ok "Order not found, skipped", st)
    | some o =>
      if o.status = "refunded" then (.ok "Already refunded", st)
      else
        match handleRefundBody o p.items st.db budget with
        | none => (.err .internal, st)
        | some db1 => (.ok "Refund processed successfully", { st with db := db1 })

/-- `POST /api/v1/refunds/webhook/epic`. -/
def epicWebhook (p : RefundPayload) (budget : Nat) (st : St) : RouteResult × St :=
  if p.orderId = "" ∨ p.userId = "" then (.err .validation, st)
  else
    match st.db.findOrderByProvider "EPIC" p.orderId with
    | none => (.ok "Order not found, skipped", st)
    | some o =>
      if o.status = "refunded" then (.ok "Already refunded", st)
      else
        match handleRefundBody o p.items st.db budget with
        | none => (.err .internal, st)
        | some db1 => (.ok "Refund processed successfully", { st with db := db1 })

structure ManualRefundBody where
  orderId : Nat
  reason : String
  deriving DecidableEq

/-- `POST /api/v1/admin/refunds/manual`. -/
def adminManualRefund (b : ManualRefundBody) (budget : Nat) (st : St) : RouteResult × St :=
  match st.db.findOrderById b.orderId with
  | none => (.err .notFound, st)
  | some o =>
    if o.status = "refunded" then (.err .conflict, st)
    else
      match handleRefundBody o
          ((st.db.orderItems.filter (fun it => it.orderId == b.orderId)).map
            (fun it => ({ skuId := it.skuId, quantity := it.quantity } : RefundItem)))
          st.db budget with
      | none => (.err .internal, st)
      | some db1 => (.ok "Manual refund processed", { st with db := db1 })

/-- The operations the service exposes on this state, plus TTL expiry of a
cached idempotency key (the cache is TTL-bounded and safe to lose). -/
inductive Event
  | grantReq (b : GrantBody)
  | steamRefund (p : RefundPayload) (budget : Nat)
  | epicRefund (p : RefundPayload) (budget : Nat)
  | adminRefund (b : ManualRefundBody) (budget : Nat)
  | cacheExpire (k : String)

def step (ev : Event) (st : St) : St :=
  match ev with
  | .grantReq b => (grant b st).2
  | .steamRefund p budget => (steamWebhook p budget st).2
  | .epicRefund p budget => (epicWebhook p budget st).2
  | .adminRefund b budget => (adminManualRefund b budget st).2
  | .cacheExpire k => { st with cache := st.cache.filter (fun p => p.1 != k) }

def run : List Event → St → St
  | [], st => st
  | ev :: rest, st => run rest (step ev st)

/-- Fresh deployment: an arbitrary SKU catalog, no orders, entitlements,
ledger entries, or cached keys. -/
def initSt (skus : List SKU) : St :=
  { db := { skus := skus, orders := [], entitlements := [], ledger := [],
            orderItems := [], auditCount := 0, nextId := 0 },
    cache := [] }

/-- Sum of all ledger quantities for one entitlement, irrespective of type. -/
def sumQtyAll (l : List LedgerEntry) (eid : Nat) : Int :=
  ((l.filter (fun e => e.entitlementId == eid)).map (fun e => e.quantity)).sum

def replayOkAux : List LedgerEntry → List LedgerEntry → Bool
  | _, [] => true
  | pre, e :: rest =>
    (sumQtyAll (pre ++ [e]) e.entitlementId == e.balanceAfter) &&
      replayOkAux (pre ++ [e]) rest

/-- Ledger replay check: at every prefix of the ledger (in `createdAt` order),
the running per-entitlement quantity sum equals that prefix's last entry's
`balanceAfter`. -/
def replayOk (l : List LedgerEntry) : Bool :=
  replayOkAux [] l

/-! ### Concrete states exercising the divergences -/

/-- A catalogued but deactivated SKU. -/
def inactiveSku : SKU :=
  { id := "s1", type := "durable", isActive := false }

def inactiveSkuSt : St := initSt [inactiveSku]

def inactiveSkuReq : GrantBody :=
  { userId := "u1", skuId := "s1", orderId := none, idempotencyKey := "k1" }

/-- A state holding a verified Order recorded under idempotency key "K" whose
entitlement has since been revoked, with the cache entry for "K" expired. -/
def keyOrder : Order :=
  { id := 0, userId := "u1", provider := "STEAM", providerOrderId := "po1",
    status := "verified", idempotencyKey := some "K" }

def keyOrderSt : St :=
  { db := { skus := [{ id := "s1", type := "durable", isActive := true }],
            orders := [keyOrder],
            entitlements := [{ id := 1, userId := "u1", skuId := "s1", orderId := some 0,
                               status := "revoked", revocationReason := some "refund" }],
            ledger := [{ entitlementId := 1, userId := "u1", skuId := "s1",
                         changeType := "grant", quantity := 1, balanceAfter := 1 }],
            orderItems := [], auditCount := 0, nextId := 2 },
    cache := [] }

def keyOrderReq : GrantBody :=
  { userId := "u1", skuId := "s1", orderId := some "po2", idempotencyKey := "K" }

/-- A state holding an order whose verification failed. -/
def failedOrder : Order :=
  { id := 0, userId := "u1", provider := "STEAM", providerOrderId := "po1",
    status := "failed", idempotencyKey := none }

def failedOrderSt : St :=
  { db := { skus := [], orders := [failedOrder], entitlements := [], ledger := [],
            orderItems := [], auditCount := 0, nextId := 1 },
    cache := [] }

def failedOrderRefund : RefundPayload :=
  { orderId := "po1", userId := "u1", items := [] }

/-! ### Claim theorems on concrete states -/

/-- C8 (code divergence): the grant handler performs no SKU validation.  With
SKU "s1" present but `isActive = false`, `grant` does not signal any failure:
it runs the grant transaction, creating the Entitlement and the grant
LedgerEntry, and returns the created entitlement — where the spec requires a
ValidationFailure and no writes. -/
theorem grant_skips_sku_validation :
    inactiveSkuSt.db.findSku "s1" = some inactiveSku ∧
    inactiveSku.isActive = false ∧
    (grant inactiveSkuReq inactiveSkuSt).1
      = GrantOutcome.created { id := 0, userId := "u1", skuId := "s1", orderId := none,
                               status := "active", revocationReason := none } ∧
    (grant inactiveSkuReq inactiveSkuSt).2.db.entitlements.length = 1 ∧
    (grant inactiveSkuReq inactiveSkuSt).2.db.ledger.length = 1 := by
  exact ⟨rfl, rfl, rfl, rfl, rfl⟩

/-- C7 (counterexample): on a cache miss the grant handler does not fall back
to durable state recorded for the idempotency key.  In `keyOrderSt` a verified
Order for key "K" exists and the cache is empty, yet `grant` with key "K"
re-executes the grant transaction: it creates a fresh Entitlement and a second
Order — which then also carries the same idempotency key "K". -/
theorem grant_ignores_durable_key_record :
    (keyOrderSt.db.orders.any fun o => o.idempotencyKey == some "K" && o.status == "verified") = true ∧
    cacheGet keyOrderSt.cache "K" = none ∧
    (grant keyOrderReq keyOrderSt).1
      = GrantOutcome.created { id := 3, userId := "u1", skuId := "s1", orderId := some 2,
                               status := "active", revocationReason := none } ∧
    (grant keyOrderReq keyOrderSt).2.db.entitlements.length
      = keyOrderSt.db.entitlements.length + 1 ∧
    ((grant keyOrderReq keyOrderSt).2.db.orders.countP fun o => o.idempotencyKey == some "K") = 2 := by
  exact ⟨rfl, rfl, rfl, rfl, rfl⟩

/-- C9 (counterexample): the Steam refund webhook guards only against
`status = "refunded"`, so a refund notification matching an order whose
verification failed moves that order from "failed" to "refunded". -/
theorem refund_moves_failed_order_to_refunded :
    failedOrderSt.db.findOrderById 0 = some failedOrder ∧
    failedOrder.status = "failed" ∧
    (steamWebhook failedOrderRefund 2 failedOrderSt).2.db.findOrderById 0
      = some { failedOrder with status := "refunded" } ∧
    (steamWebhook failedOrderRefund 2 failedOrderSt).1
      = RouteResult.ok "Refund processed successfully" := by
  exact ⟨rfl, rfl, rfl, rfl⟩

/-! ### Basic lemmas about the cache and the grant handler -/

theorem cacheGet_cacheSet (cache : List (String × Entitlement)) (k : String)
    (v : Entitlement) : cacheGet (cacheSet cache k v) k = some v := by
  simp [cacheGet, cacheSet]

theorem spendWrite_pos (b : Nat) (h : 0 < b) : spendWrite b = some (b - 1) := by
  cases b with
  | zero => exact absurd h (by simp)
  | succ n => rfl

/-- Unfolding of the grant handler on a cache hit. -/
theorem grant_cache_hit (st : St) (b : GrantBody) (e : Entitlement)
    (h : cacheGet st.cache b.idempotencyKey = some e) :
    grant b st = (GrantOutcome.cachedHit e, st) := by
  unfold grant
  rw [h]

/-- Unfolding of the grant handler on the already-owned short-circuit. -/
theorem grant_already_owned (st : St) (b : GrantBody) (e0 : Entitlement)
    (h1 : cacheGet st.cache b.idempotencyKey = none)
    (h2 : st.db.findActiveEnt b.userId b.skuId = some e0) :
    grant b st = (GrantOutcome.alreadyOwned e0,
      { st with cache := cacheSet st.cache b.idempotencyKey e0 }) := by
  unfold grant
  rw [h1, h2]

/-- Unfolding of the grant handler on the transaction path. -/
theorem grant_creates (st : St) (b : GrantBody)
    (h1 : cacheGet st.cache b.idempotencyKey = none)
    (h2 : st.db.findActiveEnt b.userId b.skuId = none) :
    grant b st = (GrantOutcome.created (grantTx b st.db).1,
      { db := (grantTx b st.db).2,
        cache := cacheSet st.cache b.idempotencyKey (grantTx b st.db).1 }) := by
  unfold grant
  rw [h1, h2]

/-- What the grant transaction writes: the new active entitlement is appended
to the entitlement table and exactly one grant LedgerEntry{1, 1} for it is
appended to the ledger. -/
theorem grantTx_spec (b : GrantBody) (db : DB) :
    (grantTx b db).2.entitlements = db.entitlements ++ [(grantTx b db).1] ∧
    (grantTx b db).2.ledger = db.ledger ++
      [{ entitlementId := (grantTx b db).1.id, userId := b.userId, skuId := b.skuId,
         changeType := "grant", quantity := 1, balanceAfter := 1 }] ∧
    (grantTx b db).1.status = "active" ∧
    (grantTx b db).2.skus = db.skus := by
  cases hb : b.orderId <;> simp [grantTx, hb, DB.appendLedger]

/-! ### C2: consumable refund branch -/

/-- C2: for an entitlement of a consumable SKU processed by `handleRefund`,
with `remaining = sum(grant entries) - sum(spend entries)`: if `remaining > 0`
the entitlement is revoked (status "revoked", revocationReason "refund" — see
`DB.revokeEnt`) and the ledger is unchanged (no clawback entry); if
`remaining <= 0` exactly one clawback LedgerEntry with `quantity =
-item.quantity` and `balanceAfter = remaining - item.quantity` is appended and
the entitlement is revoked. -/
theorem consumable_refund_branch (db : DB) (budget : Nat) (uid : String)
    (item : RefundItem) (ent : Entitlement) (sku : SKU)
    (hs : db.findSku item.skuId = some sku) (hk : sku.type = "consumable")
    (hb : 2 ≤ budget) :
    (0 < remainingFor db ent.id →
       processEnt uid item ent db budget = some (db.revokeEnt ent.id, budget - 1) ∧
       (db.revokeEnt ent.id).ledger = db.ledger) ∧
    (remainingFor db ent.id ≤ 0 →
       processEnt uid item ent db budget
         = some ((db.appendLedger
             { entitlementId := ent.id, userId := uid, skuId := item.skuId,
               changeType := "clawback", quantity := -item.quantity,
               balanceAfter := remainingFor db ent.id - item.quantity }).revokeEnt ent.id,
             budget - 2)) := by
  have hd : sku.type ≠ "durable" := by rw [hk]; decide
  have h1 : spendWrite budget = some (budget - 1) := spendWrite_pos budget (by omega)
  have h2 : spendWrite (budget - 1) = some (budget - 2) := by
    rw [spendWrite_pos (budget - 1) (by omega)]
    rfl
  constructor
  · intro hpos
    unfold processEnt
    rw [hs]
    simp only [if_neg hd, if_pos hk]
    rw [if_neg (show ¬(remainingFor db ent.id ≤ 0) by omega), h1]
    exact ⟨rfl, rfl⟩
  · intro hle
    unfold processEnt
    rw [hs]
    simp only [if_neg hd, if_pos hk]
    rw [if_pos hle, h1]
    simp only [h2]
    rfl

/-! ### C3 and C10: the already-owned short-circuit -/

/-- C3: granting a durable SKU the user already owns, under a fresh
idempotency key (cache miss), returns the pre-existing active entitlement
unchanged and leaves the database — orders, entitlements, ledger — untouched;
only the cache gains an entry for the new key. -/
theorem no_double_ownership_durable (st : St) (b : GrantBody) (e0 : Entitlement)
    (sku : SKU)
    (hs : st.db.findSku b.skuId = some sku) (hd : sku.type = "durable")
    (h1 : cacheGet st.cache b.idempotencyKey = none)
    (h2 : st.db.findActiveEnt b.userId b.skuId = some e0) :
    grant b st = (GrantOutcome.alreadyOwned e0,
      { st with cache := cacheSet st.cache b.idempotencyKey e0 }) ∧
    (grant b st).2.db = st.db := by
  have h := grant_already_owned st b e0 h1 h2
  exact ⟨h, by rw [h]⟩

/-- C10: the already-owned short-circuit never consults the SKU's kind: for a
SKU of any kind (consumable included), a grant under a fresh key while an
active entitlement exists returns that entitlement and appends no Order,
Entitlement, or LedgerEntry — in particular the user's granted quantity is
unchanged. -/
theorem already_owned_ignores_sku_kind (st : St) (b : GrantBody) (e0 : Entitlement)
    (h1 : cacheGet st.cache b.idempotencyKey = none)
    (h2 : st.db.findActiveEnt b.userId b.skuId = some e0) :
    grant b st = (GrantOutcome.alreadyOwned e0,
      { st with cache := cacheSet st.cache b.idempotencyKey e0 }) ∧
    (grant b st).2.db.orders = st.db.orders ∧
    (grant b st).2.db.entitlements = st.db.entitlements ∧
    (grant b st).2.db.ledger = st.db.ledger ∧
    sumQty (grant b st).2.db.ledger e0.id "grant" = sumQty st.db.ledger e0.id "grant" := by
  have h := grant_already_owned st b e0 h1 h2
  rw [h]
  exact ⟨rfl, rfl, rfl, rfl, rfl⟩

/-! ### C1: idempotence per key -/

/-- `n` further calls of the grant handler with the same body. -/
def grantRepeat (b : GrantBody) : Nat → St → St
  | 0, st => st
  | n + 1, st => grantRepeat b n (grant b st).2

/-- C1: with idempotency key K uncached and no active entitlement for
(userId, skuId), the first `grant` call creates exactly one Entitlement and
exactly one grant LedgerEntry; every further call with the same body leaves
the state untouched and returns the first call's entitlement from the cache,
never re-executing the grant transaction. -/
theorem grant_idempotent_per_key (st : St) (b : GrantBody)
    (h1 : cacheGet st.cache b.idempotencyKey = none)
    (h2 : st.db.findActiveEnt b.userId b.skuId = none) :
    ∃ e : Entitlement,
      (grant b st).1 = GrantOutcome.created e ∧
      (grant b st).2.db.entitlements = st.db.entitlements ++ [e] ∧
      (grant b st).2.db.ledger = st.db.ledger ++
        [{ entitlementId := e.id, userId := b.userId, skuId := b.skuId,
           changeType := "grant", quantity := 1, balanceAfter := 1 }] ∧
      (∀ n : Nat, grantRepeat b n (grant b st).2 = (grant b st).2) ∧
      grant b (grant b st).2 = (GrantOutcome.cachedHit e, (grant b st).2) := by
  have hg := grant_creates st b h1 h2
  have hspec := grantTx_spec b st.db
  have hcache : cacheGet (grant b st).2.cache b.idempotencyKey
      = some (grantTx b st.db).1 := by
    rw [hg]
    exact cacheGet_cacheSet st.cache b.idempotencyKey (grantTx b st.db).1
  have hhit : grant b (grant b st).2
      = (GrantOutcome.cachedHit (grantTx b st.db).1, (grant b st).2) :=
    grant_cache_hit (grant b st).2 b (grantTx b st.db).1 hcache
  refine ⟨(grantTx b st.db).1, by rw [hg], ?_, ?_, ?_, hhit⟩
  · rw [hg]
    exact hspec.1
  · rw [hg]
    exact hspec.2.1
  · intro n
    induction n with
    | zero => rfl
    | succ n ih =>
      show grantRepeat b n (grant b (grant b st).2).2 = (grant b st).2
      rw [hhit]
      exact ih

/-! ### C6: re-refund handling -/

/-- C6: a Steam refund webhook for an order already in status "refunded" is
absorbed as a no-op success ("Already refunded", state unchanged), while an
admin manual refund of an already-refunded order surfaces a ConflictError
(state unchanged). -/
theorem rerefund_webhook_noop_admin_conflict (st : St) (budget : Nat)
    (p : RefundPayload) (mb : ManualRefundBody) (o1 o2 : Order)
    (hp1 : p.orderId ≠ "") (hp2 : p.userId ≠ "")
    (h1 : st.db.findOrderByProvider "STEAM" p.orderId = some o1)
    (h2 : o1.status = "refunded")
    (h3 : st.db.findOrderById mb.orderId = some o2)
    (h4 : o2.status = "refunded") :
    steamWebhook p budget st = (RouteResult.ok "Already refunded", st) ∧
    adminManualRefund mb budget st = (RouteResult.err ErrKind.conflict, st) := by
  constructor
  · unfold steamWebhook
    rw [if_neg (by
          intro hor
          rcases hor with h | h
          · exact hp1 h
          · exact hp2 h)]
    rw [h1]
    simp [h2]
  · unfold adminManualRefund
    rw [h3]
    simp [h4]

/-! ### C7 (amended): the actual durable fallback of the grant handler -/

/-- C7 (amended): on a cache miss the grant handler's only durable fallback is
the lookup of an active entitlement for (userId, skuId): if one exists it is
treated as the result, the cache is repopulated under the key and it is
returned without running the grant transaction; the grant transaction runs
whenever no such active entitlement exists — regardless of any Order already
recorded for the key. -/
theorem grant_durable_fallback_is_entitlement_lookup (st : St) (b : GrantBody)
    (h1 : cacheGet st.cache b.idempotencyKey = none) :
    (∀ e0 : Entitlement, st.db.findActiveEnt b.userId b.skuId = some e0 →
        grant b st = (GrantOutcome.alreadyOwned e0,
          { st with cache := cacheSet st.cache b.idempotencyKey e0 })) ∧
    (st.db.findActiveEnt b.userId b.skuId = none →
        grant b st = (GrantOutcome.created (grantTx b st.db).1,
          { db := (grantTx b st.db).2,
            cache := cacheSet st.cache b.idempotencyKey (grantTx b st.db).1 })) := by
  exact ⟨fun e0 h2 => grant_already_owned st b e0 h1 h2,
         fun h2 => grant_creates st b h1 h2⟩

/-! ### Witness states and witnesses -/

def wGrantSku : SKU := { id := "s1", type := "durable", isActive := true }

def wGrantSt : St := initSt [wGrantSku]

def wGrantReq : GrantBody :=
  { userId := "u1", skuId := "s1", orderId := none, idempotencyKey := "k1" }

theorem grant_idempotent_per_key_witness :
    cacheGet wGrantSt.cache wGrantReq.idempotencyKey = none ∧
    wGrantSt.db.findActiveEnt wGrantReq.userId wGrantReq.skuId = none ∧
    ∃ e : Entitlement,
      (grant wGrantReq wGrantSt).1 = GrantOutcome.created e ∧
      (grant wGrantReq wGrantSt).2.db.entitlements = wGrantSt.db.entitlements ++ [e] ∧
      (grant wGrantReq wGrantSt).2.db.ledger = wGrantSt.db.ledger ++
        [{ entitlementId := e.id, userId := wGrantReq.userId, skuId := wGrantReq.skuId,
           changeType := "grant", quantity := 1, balanceAfter := 1 }] ∧
      (∀ n : Nat, grantRepeat wGrantReq n (grant wGrantReq wGrantSt).2
        = (grant wGrantReq wGrantSt).2) ∧
      grant wGrantReq (grant wGrantReq wGrantSt).2
        = (GrantOutcome.cachedHit e, (grant wGrantReq wGrantSt).2) :=
  ⟨rfl, rfl, grant_idempotent_per_key wGrantSt wGrantReq rfl rfl⟩

def wConsSku : SKU := { id := "s1", type := "consumable", isActive := true }

def wConsEnt : Entitlement :=
  { id := 7, userId := "u1", skuId := "s1", orderId := some 3, status := "active",
    revocationReason := none }

/-- A consumable entitlement granted one unit and having spent one unit
(remaining = 0), matching the spec's refund-of-spent-consumable scenario. -/
def wConsDB : DB :=
  { skus := [wConsSku],
    orders := [{ id := 3, userId := "u1", provider := "STEAM", providerOrderId := "po9",
                 status := "verified", idempotencyKey := some "k9" }],
    entitlements := [wConsEnt],
    ledger := [{ entitlementId := 7, userId := "u1", skuId := "s1", changeType := "grant",
                 quantity := 1, balanceAfter := 1 },
               { entitlementId := 7, userId := "u1", skuId := "s1", changeType := "spend",
                 quantity := 1, balanceAfter := 0 }],
    orderItems := [], auditCount := 0, nextId := 8 }

def wConsItem : RefundItem := { skuId := "s1", quantity := 1 }

theorem consumable_refund_branch_witness :
    wConsDB.findSku wConsItem.skuId = some wConsSku ∧
    wConsSku.type = "consumable" ∧
    2 ≤ 5 ∧
    ((0 < remainingFor wConsDB wConsEnt.id →
       processEnt "u1" wConsItem wConsEnt wConsDB 5 = some (wConsDB.revokeEnt wConsEnt.id, 5 - 1) ∧
       (wConsDB.revokeEnt wConsEnt.id).ledger = wConsDB.ledger) ∧
     (remainingFor wConsDB wConsEnt.id ≤ 0 →
       processEnt "u1" wConsItem wConsEnt wConsDB 5
         = some ((wConsDB.appendLedger
             { entitlementId := wConsEnt.id, userId := "u1", skuId := wConsItem.skuId,
               changeType := "clawback", quantity := -wConsItem.quantity,
               balanceAfter := remainingFor wConsDB wConsEnt.id - wConsItem.quantity }).revokeEnt wConsEnt.id,
             5 - 2))) :=
  ⟨rfl, rfl, by omega,
   consumable_refund_branch wConsDB 5 "u1" wConsItem wConsEnt wConsSku rfl rfl (by omega)⟩

def ownSku : SKU := { id := "s1", type := "durable", isActive := true }

def ownEnt : Entitlement :=
  { id := 0, userId := "u1", skuId := "s1", orderId := none, status := "active",
    revocationReason := none }

def ownSt : St :=
  { db := { skus := [ownSku], orders := [], entitlements := [ownEnt],
            ledger := [{ entitlementId := 0, userId := "u1", skuId := "s1",
                         changeType := "grant", quantity := 1, balanceAfter := 1 }],
            orderItems := [], auditCount := 0, nextId := 1 },
    cache := [] }

def ownReq : GrantBody :=
  { userId := "u1", skuId := "s1", orderId := none, idempotencyKey := "k2" }

theorem no_double_ownership_durable_witness :
    ownSt.db.findSku ownReq.skuId = some ownSku ∧
    ownSku.type = "durable" ∧
    cacheGet ownSt.cache ownReq.idempotencyKey = none ∧
    ownSt.db.findActiveEnt ownReq.userId ownReq.skuId = some ownEnt ∧
    (grant ownReq ownSt = (GrantOutcome.alreadyOwned ownEnt,
      { ownSt with cache := cacheSet ownSt.cache ownReq.idempotencyKey ownEnt }) ∧
     (grant ownReq ownSt).2.db = ownSt.db) :=
  ⟨rfl, rfl, rfl, rfl,
   no_double_ownership_durable ownSt ownReq ownEnt ownSku rfl rfl rfl rfl⟩

def ownConsSku : SKU := { id := "c1", type := "consumable", isActive := true }

def ownConsEnt : Entitlement :=
  { id := 0, userId := "u1", skuId := "c1", orderId := none, status := "active",
    revocationReason := none }

def ownConsSt : St :=
  { db := { skus := [ownConsSku], orders := [], entitlements := [ownConsEnt],
            ledger := [{ entitlementId := 0, userId := "u1", skuId := "c1",
                         changeType := "grant", quantity := 1, balanceAfter := 1 }],
            orderItems := [], auditCount := 0, nextId := 1 },
    cache := [] }

def ownConsReq : GrantBody :=
  { userId := "u1", skuId := "c1", orderId := none, idempotencyKey := "k3" }

theorem already_owned_ignores_sku_kind_witness :
    cacheGet ownConsSt.cache ownConsReq.idempotencyKey = none ∧
    ownConsSt.db.findActiveEnt ownConsReq.userId ownConsReq.skuId = some ownConsEnt ∧
    (grant ownConsReq ownConsSt = (GrantOutcome.alreadyOwned ownConsEnt,
      { ownConsSt with cache := cacheSet ownConsSt.cache ownConsReq.idempotencyKey ownConsEnt }) ∧
     (grant ownConsReq ownConsSt).2.db.orders = ownConsSt.db.orders ∧
     (grant ownConsReq ownConsSt).2.db.entitlements = ownConsSt.db.entitlements ∧
     (grant ownConsReq ownConsSt).2.db.ledger = ownConsSt.db.ledger ∧
     sumQty (grant ownConsReq ownConsSt).2.db.ledger ownConsEnt.id "grant"
       = sumQty ownConsSt.db.ledger ownConsEnt.id "grant") :=
  ⟨rfl, rfl, already_owned_ignores_sku_kind ownConsSt ownConsReq ownConsEnt rfl rfl⟩

def refundedOrder : Order :=
  { id := 0, userId := "u1", provider := "STEAM", providerOrderId := "po1",
    status := "refunded", idempotencyKey := none }

def refundedSt : St :=
  { db := { skus := [], orders := [refundedOrder], entitlements := [], ledger := [],
            orderItems := [], auditCount := 0, nextId := 1 },
    cache := [] }

def wPayload : RefundPayload := { orderId := "po1", userId := "u1", items := [] }

def wManual : ManualRefundBody := { orderId := 0, reason := "support ticket" }

theorem rerefund_webhook_noop_admin_conflict_witness :
    wPayload.orderId ≠ "" ∧
    wPayload.userId ≠ "" ∧
    refundedSt.db.findOrderByProvider "STEAM" wPayload.orderId = some refundedOrder ∧
    refundedOrder.status = "refunded" ∧
    refundedSt.db.findOrderById wManual.orderId = some refundedOrder ∧
    refundedOrder.status = "refunded" ∧
    (steamWebhook wPayload 9 refundedSt = (RouteResult.ok "Already refunded", refundedSt) ∧
     adminManualRefund wManual 9 refundedSt = (RouteResult.err ErrKind.conflict, refundedSt)) :=
  ⟨by decide, by decide, rfl, rfl, rfl, rfl,
   rerefund_webhook_noop_admin_conflict refundedSt 9 wPayload wManual refundedOrder refundedOrder
     (by decide) (by decide) rfl rfl rfl rfl⟩

theorem grant_durable_fallback_is_entitlement_lookup_witness :
    cacheGet keyOrderSt.cache keyOrderReq.idempotencyKey = none ∧
    ((∀ e0 : Entitlement, keyOrderSt.db.findActiveEnt keyOrderReq.userId keyOrderReq.skuId = some e0 →
        grant keyOrderReq keyOrderSt = (GrantOutcome.alreadyOwned e0,
          { keyOrderSt with cache := cacheSet keyOrderSt.cache keyOrderReq.idempotencyKey e0 })) ∧
     (keyOrderSt.db.findActiveEnt keyOrderReq.userId keyOrderReq.skuId = none →
        grant keyOrderReq keyOrderSt = (GrantOutcome.created (grantTx keyOrderReq keyOrderSt.db).1,
          { db := (grantTx keyOrderReq keyOrderSt.db).2,
            cache := cacheSet keyOrderSt.cache keyOrderReq.idempotencyKey
              (grantTx keyOrderReq keyOrderSt.db).1 }))) :=
  ⟨rfl, grant_durable_fallback_is_entitlement_lookup keyOrderSt keyOrderReq rfl⟩

/-! ### Frame lemmas: what the refund loop can and cannot touch -/

/-- Fields of the database that the per-item refund loop never modifies,
plus preservation of the entitlement ids (the loop only patches statuses). -/
structure Frame (db db' : DB) : Prop where
  orders : db'.orders = db.orders
  skus : db'.skus = db.skus
  orderItems : db'.orderItems = db.orderItems
  auditCount : db'.auditCount = db.auditCount
  nextId : db'.nextId = db.nextId
  entIds : db'.entitlements.map (fun e => e.id) = db.entitlements.map (fun e => e.id)

theorem Frame.refl (db : DB) : Frame db db :=
  ⟨rfl, rfl, rfl, rfl, rfl, rfl⟩

theorem Frame.comp (db1 db2 db3 : DB) (h1 : Frame db1 db2) (h2 : Frame db2 db3) :
    Frame db1 db3 := by
  obtain ⟨a1, b1, c1, d1, e1, f1⟩ := h1
  obtain ⟨a2, b2, c2, d2, e2, f2⟩ := h2
  exact ⟨a2.trans a1, b2.trans b1, c2.trans c1, d2.trans d1, e2.trans e1, f2.trans f1⟩

theorem frame_revokeEnt (db : DB) (eid : Nat) : Frame db (db.revokeEnt eid) := by
  refine ⟨rfl, rfl, rfl, rfl, rfl, ?_⟩
  unfold DB.revokeEnt
  rw [List.map_map]
  apply List.map_congr_left
  intro e _
  by_cases h : e.id = eid <;> simp [h]

theorem frame_appendLedger (db : DB) (entry : LedgerEntry) :
    Frame db (db.appendLedger entry) :=
  ⟨rfl, rfl, rfl, rfl, rfl, rfl⟩

/-- Exhaustive description of one refund-loop iteration's effect on the
database: nothing, a revocation, or (for an over-spent consumable) a clawback
append followed by the revocation. -/
theorem processEnt_cases (uid : String) (item : RefundItem) (ent : Entitlement)
    (db : DB) (budget : Nat) (db' : DB) (b' : Nat)
    (h : processEnt uid item ent db budget = some (db', b')) :
    db' = db ∨ db' = db.revokeEnt ent.id ∨
      (remainingFor db ent.id ≤ 0 ∧
       db' = (db.appendLedger (clawbackEntry uid item ent db)).revokeEnt ent.id) := by
  unfold processEnt at h
  split at h
  · left
    injection h with h
    injection h with h1 h2
    exact h1.symm
  · split at h
    · split at h
      · exact Option.noConfusion h
      · right; left
        injection h with h
        injection h with h1 h2
        exact h1.symm
    · split at h
      · split at h
        · split at h
          · exact Option.noConfusion h
          · split at h
            · exact Option.noConfusion h
            · right; right
              refine ⟨by assumption, ?_⟩
              injection h with h
              injection h with h1 h2
              exact h1.symm
        · split at h
          · exact Option.noConfusion h
          · right; left
            injection h with h
            injection h with h1 h2
            exact h1.symm
      · left
        injection h with h
        injection h with h1 h2
        exact h1.symm

theorem processEnt_frame (uid : String) (item : RefundItem) (ent : Entitlement)
    (db : DB) (budget : Nat) (db' : DB) (b' : Nat)
    (h : processEnt uid item ent db budget = some (db', b')) : Frame db db' := by
  rcases processEnt_cases uid item ent db budget db' b' h with h1 | h1 | ⟨_, h1⟩
  · rw [h1]
    exact Frame.refl db
  · rw [h1]
    exact frame_revokeEnt db ent.id
  · rw [h1]
    exact Frame.comp _ _ _ (frame_appendLedger db _) (frame_revokeEnt _ ent.id)

theorem processEnts_frame (uid : String) (item : RefundItem)
    (ents : List Entitlement) (db : DB) (budget : Nat) (db' : DB) (b' : Nat)
    (h : processEnts uid item ents db budget = some (db', b')) : Frame db db' := by
  induction ents generalizing db budget with
  | nil =>
    unfold processEnts at h
    injection h with h
    injection h with h1 h2
    rw [← h1]
    exact Frame.refl db
  | cons ent rest ih =>
    unfold processEnts at h
    split at h
    · exact Option.noConfusion h
    · rename_i db1 b1 heq
      exact Frame.comp _ _ _ (processEnt_frame uid item ent db budget db1 b1 heq) (ih db1 b1 h)

theorem processItems_frame (uid : String) (oid : Nat)
    (items : List RefundItem) (db : DB) (budget : Nat) (db' : DB) (b' : Nat)
    (h : processItems uid oid items db budget = some (db', b')) : Frame db db' := by
  induction items generalizing db budget with
  | nil =>
    unfold processItems at h
    injection h with h
    injection h with h1 h2
    rw [← h1]
    exact Frame.refl db
  | cons item rest ih =>
    unfold processItems at h
    split at h
    · exact Option.noConfusion h
    · rename_i db1 b1 heq
      exact Frame.comp _ _ _
        (processEnts_frame uid item (db.activeEntsFor oid item.skuId) db budget db1 b1 heq)
        (ih db1 b1 h)

theorem find?_map_refunded (l : List Order) (oid : Nat) (o0 : Order)
    (h : l.find? (fun o => o.id == oid) = some o0) :
    (l.map fun o => if o.id == oid then { o with status := "refunded" } else o).find?
      (fun o => o.id == oid) = some { o0 with status := "refunded" } := by
  induction l with
  | nil => exact Option.noConfusion h
  | cons o rest ih =>
    by_cases hp : (o.id == oid) = true
    · rw [List.find?_cons_of_pos rest hp] at h
      injection h with h
      subst h
      rw [List.map_cons, if_pos hp]
      exact List.find?_cons_of_pos _ hp
    · rw [List.find?_cons_of_neg rest hp] at h
      rw [List.map_cons, if_neg hp]
      exact (List.find?_cons_of_neg (p := fun x : Order => x.id == oid) _ hp).trans (ih h)

theorem findOrderById_updateRefunded (db : DB) (oid : Nat) (o0 : Order)
    (h : db.findOrderById oid = some o0) :
    (db.updateOrderStatusRefunded oid).findOrderById oid
      = some { o0 with status := "refunded" } :=
  find?_map_refunded db.orders oid o0 h

/-! ### C5: refund atomicity -/

/-- C5: a refund invocation is all-or-nothing.  For any order present in the
store, any line items and any write budget, either the whole invocation aborts
and the state — order status included — is exactly what it was before, or the
transaction commits in full: the order's status is "refunded" AND the audit
record was appended AND every per-item effect of the body is in the committed
database; the idempotency cache is untouched either way. -/
theorem refund_atomicity (st : St) (order : Order) (items : List RefundItem)
    (budget : Nat) (o0 : Order) (h : st.db.findOrderById order.id = some o0) :
    handleRefund order items st budget = st ∨
    (∃ db', handleRefundBody order items st.db budget = some db' ∧
       handleRefund order items st budget = { st with db := db' } ∧
       db'.findOrderById order.id = some { o0 with status := "refunded" } ∧
       db'.auditCount = st.db.auditCount + 1 ∧
       (handleRefund order items st budget).cache = st.cache) := by
  cases hB : handleRefundBody order items st.db budget with
  | none =>
    left
    unfold handleRefund
    rw [hB]
  | some db1 =>
    right
    refine ⟨db1, rfl, ?_, ?_, ?_, ?_⟩
    · unfold handleRefund
      rw [hB]
    · unfold handleRefundBody at hB
      split at hB
      · exact Option.noConfusion hB
      · split at hB
        · exact Option.noConfusion hB
        · rename_i dbm b1 heq
          split at hB
          · exact Option.noConfusion hB
          · injection hB with hB
            have hF := processItems_frame order.userId order.id items
              (st.db.updateOrderStatusRefunded order.id) _ dbm b1 heq
            have : db1.orders = (st.db.updateOrderStatusRefunded order.id).orders := by
              rw [← hB]
              exact hF.orders
            unfold DB.findOrderById
            rw [this]
            exact findOrderById_updateRefunded st.db order.id o0 h
    · unfold handleRefundBody at hB
      split at hB
      · exact Option.noConfusion hB
      · split at hB
        · exact Option.noConfusion hB
        · rename_i dbm b1 heq
          split at hB
          · exact Option.noConfusion hB
          · injection hB with hB
            have hF := processItems_frame order.userId order.id items
              (st.db.updateOrderStatusRefunded order.id) _ dbm b1 heq
            rw [← hB]
            show dbm.auditCount + 1 = st.db.auditCount + 1
            rw [hF.auditCount]
            rfl
    · unfold handleRefund
      rw [hB]

def wAtomOrder : Order :=
  { id := 0, userId := "u1", provider := "STEAM", providerOrderId := "po1",
    status := "verified", idempotencyKey := some "k1" }

def wAtomSt : St :=
  { db := { skus := [{ id := "s1", type := "durable", isActive := true }],
            orders := [wAtomOrder],
            entitlements := [{ id := 1, userId := "u1", skuId := "s1", orderId := some 0,
                               status := "active", revocationReason := none }],
            ledger := [{ entitlementId := 1, userId := "u1", skuId := "s1",
                         changeType := "grant", quantity := 1, balanceAfter := 1 }],
            orderItems := [], auditCount := 0, nextId := 2 },
    cache := [] }

def wAtomItems : List RefundItem := [{ skuId := "s1", quantity := 1 }]

theorem refund_atomicity_witness :
    wAtomSt.db.findOrderById wAtomOrder.id = some wAtomOrder ∧
    (handleRefund wAtomOrder wAtomItems wAtomSt 1 = wAtomSt ∨
     (∃ db', handleRefundBody wAtomOrder wAtomItems wAtomSt.db 1 = some db' ∧
        handleRefund wAtomOrder wAtomItems wAtomSt 1 = { wAtomSt with db := db' } ∧
        db'.findOrderById wAtomOrder.id = some { wAtomOrder with status := "refunded" } ∧
        db'.auditCount = wAtomSt.db.auditCount + 1 ∧
        (handleRefund wAtomOrder wAtomItems wAtomSt 1).cache = wAtomSt.cache)) :=
  ⟨rfl, refund_atomicity wAtomSt wAtomOrder wAtomItems 1 wAtomOrder rfl⟩

/-! ### C4: the ledger replay invariant over all reachable states -/

def LedgerAllGrant (l : List LedgerEntry) : Prop :=
  ∀ e ∈ l, e.changeType = "grant" ∧ e.quantity = 1 ∧ e.balanceAfter = 1

def entCount (l : List LedgerEntry) (i : Nat) : Nat :=
  (l.filter (fun x => x.entitlementId == i)).length

/-- Inductive invariant of the reachable states: the ledger holds only grant
entries {quantity 1, balanceAfter 1}, at most one per entitlement id, exactly
one for every entitlement row, with all ids below the id counter. -/
def GoodLedger (db : DB) : Prop :=
  LedgerAllGrant db.ledger ∧
  (db.ledger.map (fun e => e.entitlementId)).Nodup ∧
  (∀ ent ∈ db.entitlements, entCount db.ledger ent.id = 1) ∧
  (∀ e ∈ db.ledger, e.entitlementId < db.nextId) ∧
  (∀ ent ∈ db.entitlements, ent.id < db.nextId)

theorem sumQty_cons (e : LedgerEntry) (l : List LedgerEntry) (i : Nat) (ct : String) :
    sumQty (e :: l) i ct
      = (if e.entitlementId == i && e.changeType == ct then e.quantity else 0)
        + sumQty l i ct := by
  unfold sumQty
  rw [List.filter_cons]
  split
  · simp
  · simp

theorem entCount_cons (x : LedgerEntry) (l : List LedgerEntry) (i : Nat) :
    entCount (x :: l) i = (if x.entitlementId == i then 1 else 0) + entCount l i := by
  unfold entCount
  rw [List.filter_cons]
  split
  · simp [Nat.add_comm]
  · simp

theorem entCount_singleton (e : LedgerEntry) (i : Nat) :
    entCount [e] i = if e.entitlementId == i then 1 else 0 := by
  rw [entCount_cons]
  simp [entCount]

theorem sumQty_spend_zero (l : List LedgerEntry) (i : Nat) (h : LedgerAllGrant l) :
    sumQty l i "spend" = 0 := by
  induction l with
  | nil => rfl
  | cons e rest ih =>
    have he := h e (List.mem_cons_self e rest)
    have hrest : LedgerAllGrant rest := fun x hx => h x (List.mem_cons_of_mem e hx)
    rw [sumQty_cons, ih hrest]
    have hc : (e.entitlementId == i && e.changeType == "spend") = false := by
      rw [he.1]
      simp
    rw [hc]
    simp

theorem sumQty_grant_eq_entCount (l : List LedgerEntry) (i : Nat)
    (h : LedgerAllGrant l) : sumQty l i "grant" = (entCount l i : Int) := by
  induction l with
  | nil => rfl
  | cons e rest ih =>
    have he := h e (List.mem_cons_self e rest)
    have hrest : LedgerAllGrant rest := fun x hx => h x (List.mem_cons_of_mem e hx)
    rw [sumQty_cons, entCount_cons, ih hrest]
    have hc : (e.entitlementId == i && e.changeType == "grant") = (e.entitlementId == i) := by
      rw [he.1]
      simp
    rw [hc]
    by_cases hi : (e.entitlementId == i) = true
    · rw [if_pos hi, if_pos hi, he.2.1]
      push_cast
      ring
    · rw [if_neg hi, if_neg hi]
      push_cast
      ring

theorem remainingFor_of_good (db : DB) (eid : Nat) (hG : GoodLedger db)
    (hc : entCount db.ledger eid = 1) : remainingFor db eid = 1 := by
  unfold remainingFor
  rw [sumQty_spend_zero db.ledger eid hG.1, sumQty_grant_eq_entCount db.ledger eid hG.1, hc]
  simp

theorem processEnt_ledger_eq (uid : String) (item : RefundItem) (ent : Entitlement)
    (db : DB) (budget : Nat) (db' : DB) (b' : Nat)
    (hG : GoodLedger db) (hc : entCount db.ledger ent.id = 1)
    (h : processEnt uid item ent db budget = some (db', b')) :
    db'.ledger = db.ledger := by
  rcases processEnt_cases uid item ent db budget db' b' h with h1 | h1 | ⟨hle, h1⟩
  · rw [h1]
  · rw [h1]
    rfl
  · exfalso
    rw [remainingFor_of_good db ent.id hG hc] at hle
    omega

theorem good_congr (db' db : DB) (hl : db'.ledger = db.ledger)
    (he : db'.entitlements = db.entitlements) (hn : db'.nextId = db.nextId)
    (hG : GoodLedger db) : GoodLedger db' := by
  obtain ⟨g1, g2, g3, g4, g5⟩ := hG
  refine ⟨?_, ?_, ?_, ?_, ?_⟩
  · rw [hl]; exact g1
  · rw [hl]; exact g2
  · rw [hl, he]; exact g3
  · rw [hl, hn]; exact g4
  · rw [he, hn]; exact g5

theorem good_of_frame (db db' : DB) (hF : Frame db db') (hl : db'.ledger = db.ledger)
    (hG : GoodLedger db) : GoodLedger db' := by
  obtain ⟨g1, g2, g3, g4, g5⟩ := hG
  refine ⟨?_, ?_, ?_, ?_, ?_⟩
  · rw [hl]; exact g1
  · rw [hl]; exact g2
  · intro ent hent
    have hm : ent.id ∈ db'.entitlements.map (fun e => e.id) := List.mem_map_of_mem _ hent
    rw [hF.entIds] at hm
    obtain ⟨ent0, hent0, hid⟩ := List.mem_map.mp hm
    rw [hl, ← hid]
    exact g3 ent0 hent0
  · rw [hl, hF.nextId]; exact g4
  · intro ent hent
    have hm : ent.id ∈ db'.entitlements.map (fun e => e.id) := List.mem_map_of_mem _ hent
    rw [hF.entIds] at hm
    obtain ⟨ent0, hent0, hid⟩ := List.mem_map.mp hm
    rw [hF.nextId, ← hid]
    exact g5 ent0 hent0

theorem processEnts_good (uid : String) (item : RefundItem) (ents : List Entitlement)
    (db : DB) (budget : Nat) (db' : DB) (b' : Nat)
    (hG : GoodLedger db) (hc : ∀ ent ∈ ents, entCount db.ledger ent.id = 1)
    (h : processEnts uid item ents db budget = some (db', b')) :
    db'.ledger = db.ledger ∧ GoodLedger db' := by
  induction ents generalizing db budget with
  | nil =>
    unfold processEnts at h
    injection h with h
    injection h with h1 h2
    rw [← h1]
    exact ⟨rfl, hG⟩
  | cons ent rest ih =>
    unfold processEnts at h
    split at h
    · exact Option.noConfusion h
    · rename_i db1 b1 heq
      have hl1 : db1.ledger = db.ledger :=
        processEnt_ledger_eq uid item ent db budget db1 b1 hG
          (hc ent (List.mem_cons_self ent rest)) heq
      have hG1 : GoodLedger db1 :=
        good_of_frame db db1 (processEnt_frame uid item ent db budget db1 b1 heq) hl1 hG
      have hc1 : ∀ e ∈ rest, entCount db1.ledger e.id = 1 := by
        intro e he
        rw [hl1]
        exact hc e (List.mem_cons_of_mem ent he)
      obtain ⟨hl2, hG2⟩ := ih db1 b1 hG1 hc1 h
      exact ⟨hl2.trans hl1, hG2⟩

theorem processItems_good (uid : String) (oid : Nat) (items : List RefundItem)
    (db : DB) (budget : Nat) (db' : DB) (b' : Nat)
    (hG : GoodLedger db)
    (h : processItems uid oid items db budget = some (db', b')) :
    db'.ledger = db.ledger ∧ GoodLedger db' := by
  induction items generalizing db budget with
  | nil =>
    unfold processItems at h
    injection h with h
    injection h with h1 h2
    rw [← h1]
    exact ⟨rfl, hG⟩
  | cons item rest ih =>
    unfold processItems at h
    split at h
    · exact Option.noConfusion h
    · rename_i db1 b1 heq
      have hc : ∀ ent ∈ db.activeEntsFor oid item.skuId, entCount db.ledger ent.id = 1 := by
        intro ent hent
        exact hG.2.2.1 ent (List.mem_of_mem_filter hent)
      obtain ⟨hl1, hG1⟩ := processEnts_good uid item _ db budget db1 b1 hG hc heq
      obtain ⟨hl2, hG2⟩ := ih db1 b1 hG1 h
      exact ⟨hl2.trans hl1, hG2⟩

theorem handleRefundBody_good (order : Order) (items : List RefundItem)
    (db : DB) (budget : Nat) (db1 : DB)
    (h : handleRefundBody order items db budget = some db1)
    (hG : GoodLedger db) : GoodLedger db1 := by
  unfold handleRefundBody at h
  split at h
  · exact Option.noConfusion h
  · split at h
    · exact Option.noConfusion h
    · rename_i dbm b1 heq
      split at h
      · exact Option.noConfusion h
      · injection h with h
        have hG0 : GoodLedger (db.updateOrderStatusRefunded order.id) :=
          good_congr _ db rfl rfl rfl hG
        obtain ⟨hlm, hGm⟩ := processItems_good order.userId order.id items _ _ dbm b1 hG0 heq
        rw [← h]
        exact good_congr _ dbm rfl rfl rfl hGm

theorem grantTx_ids (b : GrantBody) (db : DB) :
    db.nextId ≤ (grantTx b db).1.id ∧ (grantTx b db).1.id < (grantTx b db).2.nextId := by
  cases hb : b.orderId <;> simp [grantTx, hb, DB.appendLedger]

theorem entCount_append (l1 l2 : List LedgerEntry) (i : Nat) :
    entCount (l1 ++ l2) i = entCount l1 i + entCount l2 i := by
  unfold entCount
  rw [List.filter_append, List.length_append]

theorem entCount_eq_zero (l : List LedgerEntry) (i : Nat)
    (h : ∀ e ∈ l, e.entitlementId ≠ i) : entCount l i = 0 := by
  unfold entCount
  rw [List.length_eq_zero, List.filter_eq_nil_iff]
  intro a ha
  simpa using h a ha

theorem grantTx_good (b : GrantBody) (db : DB) (hG : GoodLedger db) :
    GoodLedger (grantTx b db).2 := by
  obtain ⟨g1, g2, g3, g4, g5⟩ := hG
  obtain ⟨hents, hledger, hstatus, hskus⟩ := grantTx_spec b db
  obtain ⟨hle, hlt⟩ := grantTx_ids b db
  refine ⟨?_, ?_, ?_, ?_, ?_⟩
  · rw [hledger]
    intro e he
    rcases List.mem_append.mp he with h | h
    · exact g1 e h
    · rw [List.mem_singleton.mp h]
      exact ⟨rfl, rfl, rfl⟩
  · rw [hledger, List.map_append, List.nodup_append]
    refine ⟨g2, List.nodup_singleton _, ?_⟩
    intro a ha hb'
    simp only [List.map_cons, List.map_nil, List.mem_singleton] at hb'
    obtain ⟨e, he, hei⟩ := List.mem_map.mp ha
    have h4 := g4 e he
    rw [hei] at h4
    omega
  · intro ent' hent'
    rw [hents] at hent'
    rw [hledger, entCount_append, entCount_singleton]
    rcases List.mem_append.mp hent' with h | h
    · have h5 := g5 ent' h
      rw [g3 ent' h, if_neg (by simp only [beq_iff_eq]; omega)]
    · rw [List.mem_singleton.mp h]
      have hz : entCount db.ledger (grantTx b db).1.id = 0 := by
        apply entCount_eq_zero
        intro e he
        have h4 := g4 e he
        omega
      rw [hz, if_pos (by simp)]
  · rw [hledger]
    intro e he
    rcases List.mem_append.mp he with h | h
    · have h4 := g4 e h
      omega
    · rw [List.mem_singleton.mp h]
      exact hlt
  · intro ent' hent'
    rw [hents] at hent'
    rcases List.mem_append.mp hent' with h | h
    · have h5 := g5 ent' h
      omega
    · rw [List.mem_singleton.mp h]
      exact hlt

theorem grant_good (b : GrantBody) (st : St) (hG : GoodLedger st.db) :
    GoodLedger (grant b st).2.db := by
  cases h1 : cacheGet st.cache b.idempotencyKey with
  | some e =>
    rw [grant_cache_hit st b e h1]
    exact hG
  | none =>
    cases h2 : st.db.findActiveEnt b.userId b.skuId with
    | some e =>
      rw [grant_already_owned st b e h1 h2]
      exact hG
    | none =>
      rw [grant_creates st b h1 h2]
      exact grantTx_good b st.db hG

theorem steamWebhook_good (p : RefundPayload) (budget : Nat) (st : St)
    (hG : GoodLedger st.db) : GoodLedger (steamWebhook p budget st).2.db := by
  unfold steamWebhook
  split
  · exact hG
  · split
    · exact hG
    · split
      · exact hG
      · split
        · exact hG
        · rename_i db1 heq
          exact handleRefundBody_good _ p.items st.db budget db1 heq hG

theorem epicWebhook_good (p : RefundPayload) (budget : Nat) (st : St)
    (hG : GoodLedger st.db) : GoodLedger (epicWebhook p budget st).2.db := by
  unfold epicWebhook
  split
  · exact hG
  · split
    · exact hG
    · split
      · exact hG
      · split
        · exact hG
        · rename_i db1 heq
          exact handleRefundBody_good _ p.items st.db budget db1 heq hG

theorem adminManualRefund_good (b : ManualRefundBody) (budget : Nat) (st : St)
    (hG : GoodLedger st.db) : GoodLedger (adminManualRefund b budget st).2.db := by
  unfold adminManualRefund
  split
  · exact hG
  · split
    · exact hG
    · split
      · exact hG
      · rename_i db1 heq
        exact handleRefundBody_good _ _ st.db budget db1 heq hG

theorem step_good (ev : Event) (st : St) (hG : GoodLedger st.db) :
    GoodLedger (step ev st).db := by
  cases ev with
  | grantReq b => exact grant_good b st hG
  | steamRefund p budget => exact steamWebhook_good p budget st hG
  | epicRefund p budget => exact epicWebhook_good p budget st hG
  | adminRefund b budget => exact adminManualRefund_good b budget st hG
  | cacheExpire k => exact hG

theorem run_good (evs : List Event) (st : St) (hG : GoodLedger st.db) :
    GoodLedger (run evs st).db := by
  induction evs generalizing st with
  | nil => exact hG
  | cons ev rest ih => exact ih (step ev st) (step_good ev st hG)

theorem initSt_good (skus : List SKU) : GoodLedger (initSt skus).db := by
  refine ⟨?_, ?_, ?_, ?_, ?_⟩ <;> simp [initSt, LedgerAllGrant]

theorem sumQtyAll_append (l1 l2 : List LedgerEntry) (i : Nat) :
    sumQtyAll (l1 ++ l2) i = sumQtyAll l1 i + sumQtyAll l2 i := by
  unfold sumQtyAll
  rw [List.filter_append, List.map_append, List.sum_append]

theorem sumQtyAll_eq_zero (l : List LedgerEntry) (i : Nat)
    (h : ∀ e ∈ l, e.entitlementId ≠ i) : sumQtyAll l i = 0 := by
  unfold sumQtyAll
  have hf : l.filter (fun e => e.entitlementId == i) = [] := by
    rw [List.filter_eq_nil_iff]
    intro a ha
    simpa using h a ha
  rw [hf]
  rfl

theorem replayOkAux_of (rest : List LedgerEntry) :
    ∀ pre : List LedgerEntry,
    (∀ e ∈ rest, e.quantity = 1 ∧ e.balanceAfter = 1) →
    ((pre ++ rest).map (fun e => e.entitlementId)).Nodup →
    replayOkAux pre rest = true := by
  induction rest with
  | nil =>
    intro pre hAll hN
    rfl
  | cons e rest ih =>
    intro pre hAll hN
    have he := hAll e (List.mem_cons_self e rest)
    have hpre : ∀ x ∈ pre, x.entitlementId ≠ e.entitlementId := by
      intro x hx hcontra
      rw [List.map_append, List.nodup_append] at hN
      have h1 : e.entitlementId ∈ pre.map (fun e => e.entitlementId) := by
        rw [← hcontra]
        exact List.mem_map_of_mem _ hx
      have h2 : e.entitlementId ∈ (e :: rest).map (fun e => e.entitlementId) := by
        simp
      exact hN.2.2 h1 h2
    unfold replayOkAux
    rw [Bool.and_eq_true]
    constructor
    · rw [sumQtyAll_append, sumQtyAll_eq_zero pre _ hpre]
      have hone : sumQtyAll [e] e.entitlementId = e.quantity := by
        unfold sumQtyAll
        simp
      rw [hone, he.1, he.2]
      rfl
    · apply ih (pre ++ [e]) (fun x hx => hAll x (List.mem_cons_of_mem e hx))
      rw [List.append_assoc]
      exact hN

theorem replayOk_of_good (db : DB) (hG : GoodLedger db) : replayOk db.ledger = true := by
  apply replayOkAux_of db.ledger []
  · intro e he
    exact ⟨(hG.1 e he).2.1, (hG.1 e he).2.2⟩
  · simpa using hG.2.1

/-- C4: after any sequence of exposed operations (grants, Steam/Epic webhook
refunds, admin manual refunds, cache expirations) from a fresh deployment,
replaying the ledger in `createdAt` order reproduces every entry's
`balanceAfter`: at every prefix, the per-entitlement running quantity sum
equals that prefix's last entry's `balanceAfter`. -/
theorem ledger_replay_invariant (skus : List SKU) (evs : List Event) :
    replayOk ((run evs (initSt skus)).db.ledger) = true :=
  replayOk_of_good _ (run_good evs (initSt skus) (initSt_good skus))

/-! ### C9 (amended): order status evolution -/

/-- Pointwise evolution of the order table: existing rows keep their id and
either keep their status or move to "refunded"; rows are never deleted. -/
def OrdersEvolve (l l' : List Order) : Prop :=
  l.length ≤ l'.length ∧
  ∀ i : Nat, ∀ h : i < l.length, ∀ h' : i < l'.length,
    (l'.get ⟨i, h'⟩).id = (l.get ⟨i, h⟩).id ∧
    ((l'.get ⟨i, h'⟩).status = (l.get ⟨i, h⟩).status ∨ (l'.get ⟨i, h'⟩).status = "refunded")

theorem ordersEvolve_refl (l : List Order) : OrdersEvolve l l :=
  ⟨le_refl _, fun _ _ _ => ⟨rfl, Or.inl rfl⟩⟩

theorem ordersEvolve_trans (l1 l2 l3 : List Order)
    (h12 : OrdersEvolve l1 l2) (h23 : OrdersEvolve l2 l3) : OrdersEvolve l1 l3 := by
  obtain ⟨hl12, hp12⟩ := h12
  obtain ⟨hl23, hp23⟩ := h23
  refine ⟨le_trans hl12 hl23, ?_⟩
  intro i h h'
  have h2 : i < l2.length := lt_of_lt_of_le h hl12
  obtain ⟨hid12, hs12⟩ := hp12 i h h2
  obtain ⟨hid23, hs23⟩ := hp23 i h2 h'
  refine ⟨hid23.trans hid12, ?_⟩
  rcases hs23 with h3 | h3
  · rw [h3]
    exact hs12
  · exact Or.inr h3

theorem ordersEvolve_append (l t : List Order) : OrdersEvolve l (l ++ t) := by
  refine ⟨by simp, ?_⟩
  intro i h h'
  have hg : (l ++ t).get ⟨i, h'⟩ = l.get ⟨i, h⟩ := by
    rw [List.get_eq_getElem, List.get_eq_getElem, List.getElem_append_left]
  rw [hg]
  exact ⟨rfl, Or.inl rfl⟩

theorem ordersEvolve_update (l : List Order) (oid : Nat) :
    OrdersEvolve l
      (l.map fun o => if o.id == oid then { o with status := "refunded" } else o) := by
  refine ⟨by simp, ?_⟩
  intro i h h'
  have hg : (l.map fun o => if o.id == oid then { o with status := "refunded" } else o).get ⟨i, h'⟩
      = if (l.get ⟨i, h⟩).id == oid then { l.get ⟨i, h⟩ with status := "refunded" }
        else l.get ⟨i, h⟩ := by
    rw [List.get_eq_getElem, List.get_eq_getElem, List.getElem_map]
  rw [hg]
  by_cases hp : ((l.get ⟨i, h⟩).id == oid) = true
  · rw [if_pos hp]
    exact ⟨rfl, Or.inr rfl⟩
  · rw [if_neg hp]
    exact ⟨rfl, Or.inl rfl⟩

theorem handleRefundBody_orders (order : Order) (items : List RefundItem) (db : DB)
    (budget : Nat) (db1 : DB) (h : handleRefundBody order items db budget = some db1) :
    db1.orders
      = db.orders.map fun o => if o.id == order.id then { o with status := "refunded" } else o := by
  unfold handleRefundBody at h
  split at h
  · exact Option.noConfusion h
  · split at h
    · exact Option.noConfusion h
    · rename_i dbm b1 heq
      split at h
      · exact Option.noConfusion h
      · injection h with h
        have hF := processItems_frame order.userId order.id items
          (db.updateOrderStatusRefunded order.id) _ dbm b1 heq
        rw [← h]
        show dbm.orders = _
        rw [hF.orders]
        rfl

theorem grantTx_orders (b : GrantBody) (db : DB) :
    ∃ t, (grantTx b db).2.orders = db.orders ++ t := by
  cases hb : b.orderId with
  | none =>
    refine ⟨[], ?_⟩
    simp [grantTx, hb, DB.appendLedger]
  | some po =>
    refine ⟨[{ id := db.nextId, userId := b.userId, provider := "STEAM",
               providerOrderId := po, status := "verified",
               idempotencyKey := some b.idempotencyKey }], ?_⟩
    simp [grantTx, hb, DB.appendLedger]

theorem grant_orders_evolve (b : GrantBody) (st : St) :
    OrdersEvolve st.db.orders (grant b st).2.db.orders := by
  cases h1 : cacheGet st.cache b.idempotencyKey with
  | some e =>
    rw [grant_cache_hit st b e h1]
    exact ordersEvolve_refl _
  | none =>
    cases h2 : st.db.findActiveEnt b.userId b.skuId with
    | some e =>
      rw [grant_already_owned st b e h1 h2]
      exact ordersEvolve_refl _
    | none =>
      rw [grant_creates st b h1 h2]
      obtain ⟨t, ht⟩ := grantTx_orders b st.db
      show OrdersEvolve st.db.orders (grantTx b st.db).2.orders
      rw [ht]
      exact ordersEvolve_append _ t

theorem steamWebhook_orders_evolve (p : RefundPayload) (budget : Nat) (st : St) :
    OrdersEvolve st.db.orders (steamWebhook p budget st).2.db.orders := by
  unfold steamWebhook
  split
  · exact ordersEvolve_refl _
  · split
    · exact ordersEvolve_refl _
    · split
      · exact ordersEvolve_refl _
      · split
        · exact ordersEvolve_refl _
        · rename_i db1 heq
          show OrdersEvolve st.db.orders db1.orders
          rw [handleRefundBody_orders _ p.items st.db budget db1 heq]
          exact ordersEvolve_update _ _

theorem epicWebhook_orders_evolve (p : RefundPayload) (budget : Nat) (st : St) :
    OrdersEvolve st.db.orders (epicWebhook p budget st).2.db.orders := by
  unfold epicWebhook
  split
  · exact ordersEvolve_refl _
  · split
    · exact ordersEvolve_refl _
    · split
      · exact ordersEvolve_refl _
      · split
        · exact ordersEvolve_refl _
        · rename_i db1 heq
          show OrdersEvolve st.db.orders db1.orders
          rw [handleRefundBody_orders _ p.items st.db budget db1 heq]
          exact ordersEvolve_update _ _

theorem adminManualRefund_orders_evolve (b : ManualRefundBody) (budget : Nat) (st : St) :
    OrdersEvolve st.db.orders (adminManualRefund b budget st).2.db.orders := by
  unfold adminManualRefund
  split
  · exact ordersEvolve_refl _
  · split
    · exact ordersEvolve_refl _
    · split
      · exact ordersEvolve_refl _
      · rename_i db1 heq
        show OrdersEvolve st.db.orders db1.orders
        rw [handleRefundBody_orders _ _ st.db budget db1 heq]
        exact ordersEvolve_update _ _

/-- C9 (amended): under every exposed operation — grant, Steam/Epic webhook
refund, admin manual refund, cache expiry — every existing order keeps its id
and its status either stays unchanged or becomes "refunded" (so a refunded
order never changes again); the refund paths guard only against an
already-refunded status, so any non-refunded order matched by a refund —
verified, but also pending or failed — is moved to "refunded". -/
theorem order_status_forward_or_refunded (st : St) (ev : Event) :
    OrdersEvolve st.db.orders (step ev st).db.orders := by
  cases ev with
  | grantReq b => exact grant_orders_evolve b st
  | steamRefund p budget => exact steamWebhook_orders_evolve p budget st
  | epicRefund p budget => exact epicWebhook_orders_evolve p budget st
  | adminRefund b budget => exact adminManualRefund_orders_evolve b budget st
  | cacheExpire k => exact ordersEvolve_refl _

end Commerce
